import Mathlib

/-!
Verification of the streaming song-attributes consumer
(src/consumers/kafka_consumer_song_attributes.py) against its design
specification.  The Python code is shallowly embedded: JSON values become an
inductive type, the processing / storage functions become Lean functions, and
the consumer lifecycle (verify broker, create consumer, check topic, loop)
becomes a function of an environment oracle.  Machine reals (Python float,
SQLite REAL) are modelled as rationals.
-/

/-- A JSON-decoded Python value, as produced by json.loads on a message
payload: None, bool, int, float, str, list, or dict (an association list of
string keys).  Python floats are modelled as rationals. -/
inductive JValue where
  | null : JValue
  | bool (b : Bool) : JValue
  | int (n : Int) : JValue
  | float (q : ℚ) : JValue
  | str (s : String) : JValue
  | arr (xs : List JValue) : JValue
  | obj (kvs : List (String × JValue)) : JValue

/-- Value of a nonempty digit string, most significant digit first. -/
def digitsVal (cs : List Char) : Nat :=
  cs.foldl (fun a c => a * 10 + (c.toNat - 48)) 0

/-- Leading and trailing whitespace removed, as Python's numeric string
coercions do before parsing. -/
def stripSpaces (cs : List Char) : List Char :=
  ((cs.dropWhile Char.isWhitespace).reverse.dropWhile Char.isWhitespace).reverse

/-- Python int() applied to a string: surrounding whitespace stripped, an
optional sign followed by a nonempty run of decimal digits.  (Underscore
separators and non-ASCII digits are not modelled; no claim depends on them.) -/
def pyParseInt (s : String) : Option Int :=
  let core : List Char → Option Nat := fun ds =>
    if ds ≠ [] ∧ ds.all Char.isDigit then some (digitsVal ds) else none
  match stripSpaces s.toList with
  | '+' :: rest => (core rest).map (fun n => (n : Int))
  | '-' :: rest => (core rest).map (fun n => -(n : Int))
  | rest => (core rest).map (fun n => (n : Int))

/-- Python float() applied to a string: surrounding whitespace stripped, an
optional sign, digits with an optional fractional part.  (Exponent notation,
inf/nan and underscore separators are not modelled; no claim depends on
them.) -/
def pyParseFloat (s : String) : Option ℚ :=
  let core : List Char → Option ℚ := fun ds =>
    match ds.span Char.isDigit with
    | (intPart, rest) =>
      match rest with
      | [] => if intPart ≠ [] then some (digitsVal intPart : ℚ) else none
      | '.' :: frac =>
        if frac.all Char.isDigit ∧ (intPart ≠ [] ∨ frac ≠ []) then
          some ((digitsVal intPart : ℚ) + (digitsVal frac : ℚ) / (10 ^ frac.length : ℚ))
        else none
      | _ => none
  match stripSpaces s.toList with
  | '+' :: rest => core rest
  | '-' :: rest => (core rest).map (fun q => -q)
  | rest => core rest

/-- Python int() applied to a JSON-decoded value: ints pass through, floats
truncate toward zero, bools map to 0/1, strings are parsed; None, lists and
dicts raise TypeError, modelled as none. -/
def pyInt : JValue → Option Int
  | .int n => some n
  | .float q => some (Int.tdiv q.num (q.den : Int))
  | .bool b => some (if b then 1 else 0)
  | .str s => pyParseInt s
  | _ => none

/-- Python float() applied to a JSON-decoded value: ints and bools widen,
floats pass through, strings are parsed; None, lists and dicts raise
TypeError, modelled as none. -/
def pyFloat : JValue → Option ℚ
  | .int n => some (n : ℚ)
  | .float q => some q
  | .bool b => some (if b then 1 else 0)
  | .str s => pyParseFloat s
  | _ => none

/-- Python dict.get k on a JSON object: the stored value when the key is
present, none when it is missing. -/
def dictGet (kvs : List (String × JValue)) (k : String) : Option JValue :=
  (kvs.find? (fun p => p.1 == k)).map (fun p => p.2)

/-- Python message.get(k, d): the stored value when present, otherwise the
supplied default. -/
def dictGetD (kvs : List (String × JValue)) (k : String) (d : JValue) : JValue :=
  (dictGet kvs k).getD d

/-- The processed message dict built by process_message: three text-valued
entries taken verbatim from the raw message and three coerced numeric
entries. -/
structure PySong where
  title : JValue
  artist : JValue
  genre : JValue
  duration_seconds : Int
  release_year : Int
  sentiment : ℚ

/-- process_message: builds the processed dict inside one try block.  title,
artist and genre use message.get(k) (None when missing); duration_seconds and
release_year coerce message.get(k, 0) with int(); sentiment coerces
message.get(k, 0.0) with float().  Any exception during the construction -
a coercion failure of any one numeric field, or attribute access on a raw
value that is not a dict - is caught by the except clause, and the function
returns None. -/
def process_message : JValue → Option PySong
  | .obj kvs =>
    match pyInt (dictGetD kvs "duration_seconds" (.int 0)),
          pyInt (dictGetD kvs "release_year" (.int 0)),
          pyFloat (dictGetD kvs "sentiment" (.float 0)) with
    | some d, some r, some s =>
      some { title := dictGetD kvs "title" .null,
             artist := dictGetD kvs "artist" .null,
             genre := dictGetD kvs "genre" .null,
             duration_seconds := d,
             release_year := r,
             sentiment := s }
    | _, _, _ => none
  | _ => none

/-- A stored row of the songs table.  The three text columns have TEXT
affinity, so a stored value is NULL or text; the integer columns hold Python
ints unchanged; the REAL column is modelled as a rational. -/
structure Song where
  title : Option String
  artist : Option String
  genre : Option String
  duration_seconds : Int
  release_year : Int
  sentiment : ℚ
deriving DecidableEq

/-- SQLite TEXT-affinity storage of a Python value bound to one of the text
columns: None stays NULL, text is stored as is, ints and bools (sqlite3 binds
a bool as the integer 0 or 1) are converted to their decimal text.  Binding a
float to a TEXT column also stores its text; binding a list or dict raises in
sqlite3 - both corners are unreachable for the producer's messages and no
claim depends on them, so they are rendered with toString and as NULL. -/
def storeText : JValue → Option String
  | .null => none
  | .str s => some s
  | .int n => some (toString n)
  | .bool b => some (if b then "1" else "0")
  | .float q => some (toString q)
  | _ => none

/-- The row that INSERT INTO songs stores for a processed message. -/
def toStored (p : PySong) : Song :=
  { title := storeText p.title,
    artist := storeText p.artist,
    genre := storeText p.genre,
    duration_seconds := p.duration_seconds,
    release_year := p.release_year,
    sentiment := p.sentiment }

/-- The SQLite database file: whether the songs table exists, its rows in
insertion order paired with their assigned ids, and the AUTOINCREMENT
sequence (the largest id handed out so far). -/
structure DBFile where
  hasTable : Bool
  rows : List (Nat × Song)
  seq : Nat
deriving DecidableEq

/-- sqlite3.connect: opens the file, creating an empty database (no songs
table yet) when the file is absent. -/
def connectFile : Option DBFile → DBFile
  | none => { hasTable := false, rows := [], seq := 0 }
  | some d => d

/-- init_db: connect and CREATE TABLE IF NOT EXISTS songs (...).  When the
table already exists the statement changes nothing; otherwise an empty table
is created. -/
def init_db (f : Option DBFile) : DBFile :=
  let d := connectFile f
  if d.hasTable then d else { hasTable := true, rows := [], seq := 0 }

/-- insert_message: INSERT INTO songs (title, ..., sentiment) VALUES (...).
The AUTOINCREMENT primary key assigns the next sequence value as the id.  The
Python function has no return statement, so its value is None: the second
component models that returned value. -/
def insert_message (m : Song) (db : DBFile) : DBFile × Option Nat :=
  ({ db with rows := db.rows ++ [(db.seq + 1, m)], seq := db.seq + 1 }, none)

/-- SELECT of the single row with a given id, the retrieval used by the
round-trip property of the design (the program itself only runs grouped
SELECTs). -/
def getById (db : DBFile) (i : Nat) : Option Song :=
  (db.rows.find? (fun r => r.1 == i)).map (fun r => r.2)

/-- The environment one run of the consumer sees: whether verify_services
succeeds, whether create_kafka_consumer returns a consumer, whether
is_topic_available succeeds, the decoded payloads the topic delivers, and
whether the n-th INSERT attempt succeeds (false models a storage-layer
error raised by sqlite3). -/
structure World where
  brokerUp : Bool
  consumerOk : Bool
  topicExists : Bool
  messages : List JValue
  insertOk : Nat → Bool

/-- Outcome of consume_messages_from_kafka: a sys.exit with the given status
(SystemExit, which escapes every except Exception handler), an exception
re-raised out of the message loop (with the database as it stood and the
messages not yet consumed), or the end of the modelled finite stream. -/
inductive ConsumeResult where
  | sysExit (code : Nat) (db : DBFile) : ConsumeResult
  | raised (db : DBFile) (pending : List JValue) : ConsumeResult
  | ended (db : DBFile) : ConsumeResult

/-- The per-message loop of consume_messages_from_kafka: process each
payload; when a record is produced, insert it.  generate_combined_graphs runs
after each insert but only reads the store, so it adds no state here.  A
storage error during an insert raises; the surrounding try logs and
re-raises, so the loop stops with the failing message and the rest pending.
n counts the insert attempts so far. -/
def runLoop (ok : Nat → Bool) : Nat → List JValue → DBFile → ConsumeResult
  | _, [], db => .ended db
  | n, m :: ms, db =>
    match process_message m with
    | none => runLoop ok n ms db
    | some pm =>
      if ok n then runLoop ok (n + 1) ms (insert_message (toStored pm) db).1
      else .raised db (m :: ms)

/-- consume_messages_from_kafka: verify_services (sys.exit(11) on failure),
create the consumer (sys.exit(11) on failure), check the topic
(sys.exit(13) on failure), then run the message loop. -/
def consume_messages_from_kafka (w : World) (db : DBFile) : ConsumeResult :=
  if w.brokerUp then
    if w.consumerOk then
      if w.topicExists then runLoop w.insertOk 0 w.messages db
      else .sysExit 13 db
    else .sysExit 11 db
  else .sysExit 11 db

/-- main: STEP 2 deletes any existing database file, STEP 3 runs init_db on
the now-absent file, STEP 4 consumes.  A sys.exit inside the consumer is a
SystemExit, which passes through the except KeyboardInterrupt and except
Exception clauses, so the process exits with that status; any other
exception raised out of the loop is caught, logged and swallowed, and the
process returns normally with exit status 0.  The result is the exit status
and the final state of the database file. -/
def main_run (w : World) (_f : Option DBFile) : Nat × Option DBFile :=
  let db0 := init_db none
  match consume_messages_from_kafka w db0 with
  | .sysExit c db => (c, some db)
  | .raised db _ => (0, some db)
  | .ended db => (0, some db)

/-- The validated records of a payload sequence, in arrival order. -/
def accepted (msgs : List JValue) : List Song :=
  msgs.filterMap (fun m => (process_message m).map toStored)

/-- Distinct keys of a grouped SELECT, in ascending key order (SQLite's
GROUP BY emits one output row per distinct key; these queries either say
ORDER BY the key or, for the genre query, inherit the sorter's key order). -/
def sortKeys {α : Type} [LinearOrder α] (l : List α) : List α :=
  List.insertionSort (· ≤ ·) l.dedup

/-- SELECT release_year, COUNT(*) FROM songs GROUP BY release_year ORDER BY
release_year. -/
def releaseYearCounts (db : DBFile) : List (Int × Nat) :=
  (sortKeys (db.rows.map (fun r => r.2.release_year))).map
    (fun y => (y, (db.rows.filter (fun r => r.2.release_year = y)).length))

/-- SELECT release_year, AVG(sentiment) FROM songs GROUP BY release_year
ORDER BY release_year. -/
def releaseYearAvgSentiment (db : DBFile) : List (Int × ℚ) :=
  (sortKeys (db.rows.map (fun r => r.2.release_year))).map
    (fun y =>
      (y, ((db.rows.filter (fun r => r.2.release_year = y)).map
            (fun r => r.2.sentiment)).sum /
          ((db.rows.filter (fun r => r.2.release_year = y)).length : ℚ)))

/-- The genre group key: a NULL genre sorts before every text value. -/
def genreKey (s : Song) : WithBot String :=
  s.genre

/-- SELECT genre, COUNT(*) FROM songs GROUP BY genre (SQLite emits the
groups in key order: NULL first, then text ascending). -/
def genreCounts (db : DBFile) : List (WithBot String × Nat) :=
  (sortKeys (db.rows.map (fun r => genreKey r.2))).map
    (fun g => (g, (db.rows.filter (fun r => genreKey r.2 = g)).length))

/-- Concrete example records and environments used by the witnesses. -/
def songA : Song :=
  { title := some "Bohemian Rhapsody", artist := some "Queen",
    genre := some "Rock", duration_seconds := 354, release_year := 1975,
    sentiment := 23/25 }

def songB : Song :=
  { title := some "Imagine", artist := some "John Lennon",
    genre := some "Pop", duration_seconds := 183, release_year := 1971,
    sentiment := 1/2 }

def goodMsgA : JValue :=
  .obj [("title", .str "Bohemian Rhapsody"), ("artist", .str "Queen"),
        ("genre", .str "Rock"), ("duration_seconds", .int 354),
        ("release_year", .int 1975), ("sentiment", .float (23/25))]

def goodMsgB : JValue :=
  .obj [("title", .str "Imagine"), ("artist", .str "John Lennon"),
        ("genre", .str "Pop"), ("duration_seconds", .int 183),
        ("release_year", .int 1971), ("sentiment", .float (1/2))]

def goodPyA : PySong :=
  { title := .str "Bohemian Rhapsody", artist := .str "Queen",
    genre := .str "Rock", duration_seconds := 354, release_year := 1975,
    sentiment := 23/25 }

def badMsg : JValue := .str "not a mapping"

def exSong (y : Int) : Song :=
  { title := some "t", artist := some "a", genre := some "Rock",
    duration_seconds := 200, release_year := y, sentiment := 0 }

def exampleDb : DBFile :=
  { hasTable := true,
    rows := [(1, exSong 1975), (2, exSong 1975), (3, exSong 1980)],
    seq := 3 }

def brokerDownWorld : World :=
  { brokerUp := false, consumerOk := true, topicExists := true,
    messages := [], insertOk := fun _ => true }

def consumerFailWorld : World :=
  { brokerUp := true, consumerOk := false, topicExists := true,
    messages := [], insertOk := fun _ => true }

def topicMissingWorld : World :=
  { brokerUp := true, consumerOk := true, topicExists := false,
    messages := [], insertOk := fun _ => true }

def storageFailWorld : World :=
  { brokerUp := true, consumerOk := true, topicExists := true,
    messages := [goodMsgA], insertOk := fun _ => false }

def cleanWorld : World :=
  { brokerUp := true, consumerOk := true, topicExists := true,
    messages := [], insertOk := fun _ => true }

def priorDb : DBFile :=
  { hasTable := true, rows := [(1, songA)], seq := 1 }

/-- The distinct-key list of a grouped query is strictly ascending. -/
theorem sortKeys_sorted_lt {α : Type} [LinearOrder α] (l : List α) :
    List.Sorted (· < ·) (sortKeys l) := by
  have h1 : List.Sorted (· ≤ ·) (sortKeys l) :=
    List.sorted_insertionSort (· ≤ ·) l.dedup
  have h2 : (sortKeys l).Nodup :=
    ((List.perm_insertionSort (· ≤ ·) l.dedup).nodup_iff).mpr (List.nodup_dedup l)
  exact h1.lt_of_le h2

/-- sortKeys keeps exactly the keys that occur. -/
theorem mem_sortKeys {α : Type} [LinearOrder α] {l : List α} {a : α} :
    a ∈ sortKeys l ↔ a ∈ l := by
  unfold sortKeys
  rw [List.mem_insertionSort, List.mem_dedup]

/-- First components of a keyed map. -/
theorem map_fst_keyed {α β : Type} (ks : List α) (f : α → β) :
    (ks.map (fun k => (k, f k))).map Prod.fst = ks := by
  induction ks with
  | nil => rfl
  | cons a l ih => simp [ih]

/-- Consecutive identifiers are strictly increasing. -/
theorem sorted_lt_range' (s n : Nat) : List.Sorted (· < ·) (List.range' s n) := by
  induction n generalizing s with
  | zero => simp
  | succ k ih =>
    rw [List.range'_succ]
    refine List.sorted_cons.mpr ⟨?_, ih (s + 1)⟩
    intro b hb
    rw [List.mem_range'] at hb
    obtain ⟨i, _, rfl⟩ := hb
    omega

/-- When every insert succeeds, the loop appends exactly the validated
records, assigning the consecutive identifiers after the current sequence
value. -/
theorem runLoop_all_ok (ok : Nat → Bool) (h : ∀ k, ok k = true)
    (msgs : List JValue) : ∀ (n : Nat) (db : DBFile),
    runLoop ok n msgs db = .ended
      { hasTable := db.hasTable,
        rows := db.rows ++
          (List.range' (db.seq + 1) (accepted msgs).length).zip (accepted msgs),
        seq := db.seq + (accepted msgs).length } := by
  induction msgs with
  | nil => intro n db; simp [runLoop, accepted]
  | cons m ms ih =>
    intro n db
    cases hp : process_message m with
    | none =>
      have hacc : accepted (m :: ms) = accepted ms := by
        simp [accepted, List.filterMap_cons, hp]
      rw [hacc]
      calc runLoop ok n (m :: ms) db = runLoop ok n ms db := by
            simp [runLoop, hp]
        _ = _ := ih n db
    | some pm =>
      have hacc : accepted (m :: ms) = toStored pm :: accepted ms := by
        simp [accepted, List.filterMap_cons, hp]
      have hstep : runLoop ok n (m :: ms) db =
          runLoop ok (n + 1) ms (insert_message (toStored pm) db).1 := by
        simp [runLoop, hp, h n]
      rw [hstep, ih (n + 1) (insert_message (toStored pm) db).1, hacc]
      have hseq : db.seq + 1 + (accepted ms).length =
          db.seq + ((accepted ms).length + 1) := by omega
      simp [insert_message, List.length_cons, List.range'_succ,
        List.zip_cons_cons, List.append_assoc, List.singleton_append, hseq]

/-- Claim C9: init_db runs CREATE TABLE IF NOT EXISTS, so calling it (once or
twice in a row) against a store whose songs table already exists leaves the
stored records, their identifiers, the sequence and the schema unchanged. -/
theorem init_db_idempotent (d : DBFile) (h : d.hasTable = true) :
    init_db (some d) = d ∧ init_db (some (init_db (some d))) = d := by
  simp [init_db, connectFile, h]

/-- Witness for C9 at a concrete populated store. -/
theorem init_db_idempotent_witness :
    init_db (some exampleDb) = exampleDb ∧
    init_db (some (init_db (some exampleDb))) = exampleDb :=
  init_db_idempotent exampleDb rfl

/-- Claim C2 counterexample: with the broker unreachable, main exits with
status 11, but only after deleting the prior database file and initializing
a fresh empty one - the final file is the fresh initialized store, not the
untouched prior store, so the Durable Store does not remain uninitialized. -/
theorem broker_down_still_resets_store :
    main_run brokerDownWorld (some priorDb) = (11, some (init_db none)) ∧
    init_db none ≠ priorDb := by
  exact ⟨rfl, by decide⟩

/-- Claim C2 as amended: when the broker is unreachable, the process exits
with status 11 and no record is ever inserted, but main has already deleted
any prior database file and initialized a fresh empty songs table before the
broker check, so the final store is the fresh empty one. -/
theorem broker_down_exits_11_fresh_store (w : World) (f : Option DBFile)
    (h : w.brokerUp = false) :
    main_run w f = (11, some { hasTable := true, rows := [], seq := 0 }) := by
  simp [main_run, consume_messages_from_kafka, h, init_db, connectFile]

/-- Witness for the amended C2. -/
theorem broker_down_exits_11_fresh_store_witness :
    main_run brokerDownWorld (some priorDb) =
      (11, some { hasTable := true, rows := [], seq := 0 }) :=
  broker_down_exits_11_fresh_store brokerDownWorld (some priorDb) rfl

/-- Claim C3 counterexample: broker-unreachable and consumer-creation
failure are different startup causes but terminate with the same exit
status 11, so the exit codes of two different causes do not always differ. -/
theorem broker_and_consumer_failures_share_exit_code :
    (main_run brokerDownWorld none).1 = 11 ∧
    (main_run consumerFailWorld none).1 = 11 := ⟨rfl, rfl⟩

/-- Claim C3 as amended: broker verification failure and consumer-handle
creation failure both exit with status 11, while a missing topic exits with
status 13 - only the missing-topic cause is distinguishable from the other
two. -/
theorem startup_exit_codes (w : World) (f : Option DBFile) :
    (w.brokerUp = false → (main_run w f).1 = 11) ∧
    (w.brokerUp = true → w.consumerOk = false → (main_run w f).1 = 11) ∧
    (w.brokerUp = true → w.consumerOk = true → w.topicExists = false →
      (main_run w f).1 = 13) := by
  refine ⟨fun h => ?_, fun h1 h2 => ?_, fun h1 h2 h3 => ?_⟩ <;>
    simp [main_run, consume_messages_from_kafka, *]

/-- Witness for the amended C3. -/
theorem startup_exit_codes_witness :
    (main_run topicMissingWorld none).1 = 13 ∧
    (main_run brokerDownWorld none).1 = 11 :=
  ⟨(startup_exit_codes topicMissingWorld none).2.2 rfl rfl rfl,
   (startup_exit_codes brokerDownWorld none).1 rfl⟩

/-- Claim C4 counterexample: a run whose first insert hits a storage error
terminates with exit status 0, the same status as a clean run that consumed
no messages - there is no specific, stable exit code for the storage-error
category (the exception is caught in main, logged and swallowed). -/
theorem storage_error_exit_code_not_specific :
    main_run storageFailWorld none = (0, some (init_db none)) ∧
    main_run cleanWorld none = (0, some (init_db none)) := ⟨rfl, rfl⟩

/-- Claim C4 as amended: a storage-layer error while inserting a validated
record is fatal to the loop - the loop stops at the failing message with the
store unchanged, the failing and all later messages unprocessed, and no
in-process retry - and the exception propagates to main, which catches and
logs it and terminates normally, so the process exit status is 0 rather than
a storage-specific code. -/
theorem storage_error_fatal_no_retry (ok : Nat → Bool) (n : Nat) (m : JValue)
    (pm : PySong) (ms : List JValue) (db : DBFile)
    (h1 : process_message m = some pm) (h2 : ok n = false) :
    runLoop ok n (m :: ms) db = .raised db (m :: ms) ∧
    (∀ (w : World) (f : Option DBFile) (db' : DBFile) (p : List JValue),
      consume_messages_from_kafka w (init_db none) = .raised db' p →
      main_run w f = (0, some db')) := by
  constructor
  · simp [runLoop, h1, h2]
  · intro w f db' p hc
    simp [main_run, hc]

/-- Witness for the amended C4. -/
theorem storage_error_fatal_no_retry_witness :
    runLoop (fun _ => false) 0 [goodMsgA] (init_db none) =
      .raised (init_db none) [goodMsgA] ∧
    main_run storageFailWorld none = (0, some (init_db none)) := by
  have h := storage_error_fatal_no_retry (fun _ => false) 0 goodMsgA
    goodPyA [] (init_db none) rfl rfl
  exact ⟨h.1, h.2 storageFailWorld none (init_db none) [goodMsgA] rfl⟩

/-- Claim C6 counterexample: insert_message has no return statement, so its
Python return value is None - it does not return the identifier 1 that the
AUTOINCREMENT key assigns to the first inserted row. -/
theorem insert_message_returns_no_id :
    (insert_message songA (init_db none)).2 = none ∧
    (insert_message songA (init_db none)).1.seq = 1 ∧
    (insert_message songA (init_db none)).2 ≠ some 1 := by
  refine ⟨rfl, rfl, ?_⟩
  intro h
  exact Option.noConfusion h

/-- Claim C6 as amended: insert_message itself returns None, but the store
assigns the next sequence value as the new row's identifier, and retrieving
by that identifier returns exactly the record that was inserted, for every
record and every store whose existing identifiers do not exceed the
sequence value. -/
theorem insert_assigns_next_id_roundtrip (s : Song) (db : DBFile)
    (h : ∀ p ∈ db.rows, p.1 ≤ db.seq) :
    (insert_message s db).2 = none ∧
    getById (insert_message s db).1 (db.seq + 1) = some s := by
  refine ⟨rfl, ?_⟩
  unfold getById insert_message
  rw [List.find?_append]
  have hrnone : db.rows.find? (fun r => r.1 == db.seq + 1) = none := by
    rw [List.find?_eq_none]
    intro x hx
    simp only [beq_iff_eq]
    have := h x hx
    omega
  rw [hrnone]
  simp

/-- Witness for the amended C6. -/
theorem insert_assigns_next_id_roundtrip_witness :
    (insert_message songB exampleDb).2 = none ∧
    getById (insert_message songB exampleDb).1 (exampleDb.seq + 1) =
      some songB :=
  insert_assigns_next_id_roundtrip songB exampleDb (by decide)

/-- Claim C1 counterexample: a message whose duration_seconds is present but
not coercible to int makes process_message return None - no Song Record is
produced at all, instead of a record with duration_seconds defaulted to 0
and the other fields kept. -/
theorem noncoercible_field_rejects_record :
    process_message (.obj [("title", .str "Stairway to Heaven"),
      ("artist", .str "Led Zeppelin"), ("genre", .str "Rock"),
      ("duration_seconds", .str "three hundred"),
      ("release_year", .int 1971), ("sentiment", .float (1/4))]) = none ∧
    ∀ p : PySong, process_message (.obj [("title", .str "Stairway to Heaven"),
      ("artist", .str "Led Zeppelin"), ("genre", .str "Rock"),
      ("duration_seconds", .str "three hundred"),
      ("release_year", .int 1971), ("sentiment", .float (1/4))]) ≠ some p := by
  refine ⟨rfl, fun p hp => ?_⟩
  rw [show process_message (.obj [("title", .str "Stairway to Heaven"),
      ("artist", .str "Led Zeppelin"), ("genre", .str "Rock"),
      ("duration_seconds", .str "three hundred"),
      ("release_year", .int 1971), ("sentiment", .float (1/4))]) = none
    from rfl] at hp
  exact Option.noConfusion hp

/-- Claim C1 as amended: the single try block of process_message makes any
coercion failure of a present numeric field fatal to the whole record - the
message yields no record at all; the 0 / 0 / 0.0 defaults apply only when
the key is missing (or its value is coercible), in which case the record is
produced with the other fields keeping their extracted values. -/
theorem coercion_failure_rejects_whole_record (kvs : List (String × JValue)) :
    (∀ v, dictGet kvs "duration_seconds" = some v → pyInt v = none →
      process_message (.obj kvs) = none) ∧
    (∀ v, dictGet kvs "release_year" = some v → pyInt v = none →
      process_message (.obj kvs) = none) ∧
    (∀ v, dictGet kvs "sentiment" = some v → pyFloat v = none →
      process_message (.obj kvs) = none) ∧
    (dictGet kvs "duration_seconds" = none → dictGet kvs "release_year" = none →
      dictGet kvs "sentiment" = none →
      process_message (.obj kvs) =
        some { title := dictGetD kvs "title" .null,
               artist := dictGetD kvs "artist" .null,
               genre := dictGetD kvs "genre" .null,
               duration_seconds := 0, release_year := 0, sentiment := 0 }) := by
  refine ⟨?_, ?_, ?_, ?_⟩
  · intro v hv hni
    have hd : dictGetD kvs "duration_seconds" (.int 0) = v := by
      simp [dictGetD, hv]
    simp [process_message, hd, hni]
  · intro v hv hni
    have hd : dictGetD kvs "release_year" (.int 0) = v := by
      simp [dictGetD, hv]
    cases h1 : pyInt (dictGetD kvs "duration_seconds" (.int 0)) <;>
      simp [process_message, hd, hni, h1]
  · intro v hv hnf
    have hd : dictGetD kvs "sentiment" (.float 0) = v := by
      simp [dictGetD, hv]
    cases h1 : pyInt (dictGetD kvs "duration_seconds" (.int 0)) <;>
      cases h2 : pyInt (dictGetD kvs "release_year" (.int 0)) <;>
      simp [process_message, hd, hnf, h1, h2]
  · intro h1 h2 h3
    simp [process_message, dictGetD, h1, h2, h3, pyInt, pyFloat]

/-- Witness for the amended C1: a present non-coercible duration rejects the
message; with the numeric keys absent the record is produced with the
defaults and the extracted title. -/
theorem coercion_failure_rejects_whole_record_witness :
    process_message (.obj [("title", .str "Hotel California"),
      ("duration_seconds", .str "six minutes")]) = none ∧
    process_message (.obj [("title", .str "Hotel California")]) =
      some { title := .str "Hotel California", artist := .null, genre := .null,
             duration_seconds := 0, release_year := 0, sentiment := 0 } := by
  constructor
  · exact (coercion_failure_rejects_whole_record
      [("title", .str "Hotel California"),
       ("duration_seconds", .str "six minutes")]).1 (.str "six minutes") rfl rfl
  · exact (coercion_failure_rejects_whole_record
      [("title", .str "Hotel California")]).2.2.2 rfl rfl rfl

/-- Claim C7: a raw message that is not a mapping raises on attribute
access, the except clause yields None, and the consumer loop drops the
message without retry: the store and the processing of the remaining
messages are exactly as if the message had never arrived. -/
theorem non_mapping_dropped (raw : JValue) (h : ∀ kvs, raw ≠ .obj kvs) :
    process_message raw = none ∧
    ∀ (ok : Nat → Bool) (n : Nat) (ms : List JValue) (db : DBFile),
      runLoop ok n (raw :: ms) db = runLoop ok n ms db := by
  have hpm : process_message raw = none := by
    cases raw with
    | obj kvs => exact absurd rfl (h kvs)
    | null => rfl
    | bool b => rfl
    | int n => rfl
    | float q => rfl
    | str s => rfl
    | arr xs => rfl
  exact ⟨hpm, fun ok n ms db => by simp [runLoop, hpm]⟩

/-- Witness for C7 at a string payload. -/
theorem non_mapping_dropped_witness :
    process_message badMsg = none ∧
    runLoop (fun _ => true) 0 [badMsg] (init_db none) =
      runLoop (fun _ => true) 0 [] (init_db none) := by
  have h := non_mapping_dropped badMsg (fun kvs hk => JValue.noConfusion hk)
  exact ⟨h.1, h.2 (fun _ => true) 0 [] (init_db none)⟩

/-- Claim C10: a numeric field whose value is present but null (JSON null,
Python None) makes the int()/float() coercion raise, so the whole message is
dropped - process_message yields no record and the loop leaves the store
untouched - whereas a message missing the same keys entirely is accepted
with the fields defaulted to 0 / 0 / 0.0. -/
theorem null_numeric_field_drops_message (kvs : List (String × JValue)) :
    (dictGet kvs "duration_seconds" = some .null →
      process_message (.obj kvs) = none) ∧
    (dictGet kvs "release_year" = some .null →
      process_message (.obj kvs) = none) ∧
    (dictGet kvs "sentiment" = some .null →
      process_message (.obj kvs) = none) ∧
    (dictGet kvs "duration_seconds" = some .null →
      ∀ (ok : Nat → Bool) (n : Nat) (ms : List JValue) (db : DBFile),
        runLoop ok n (.obj kvs :: ms) db = runLoop ok n ms db) ∧
    (dictGet kvs "duration_seconds" = none → dictGet kvs "release_year" = none →
      dictGet kvs "sentiment" = none →
      ∃ p : PySong, process_message (.obj kvs) = some p ∧
        p.duration_seconds = 0 ∧ p.release_year = 0 ∧ p.sentiment = 0) := by
  have hdur : dictGet kvs "duration_seconds" = some .null →
      process_message (.obj kvs) = none := by
    intro hv
    have hd : dictGetD kvs "duration_seconds" (.int 0) = .null := by
      simp [dictGetD, hv]
    simp [process_message, hd, pyInt]
  refine ⟨hdur, ?_, ?_, ?_, ?_⟩
  · intro hv
    have hd : dictGetD kvs "release_year" (.int 0) = .null := by
      simp [dictGetD, hv]
    cases h1 : pyInt (dictGetD kvs "duration_seconds" (.int 0)) <;>
      simp [process_message, hd, pyInt, h1]
  · intro hv
    have hd : dictGetD kvs "sentiment" (.float 0) = .null := by
      simp [dictGetD, hv]
    cases h1 : pyInt (dictGetD kvs "duration_seconds" (.int 0)) <;>
      cases h2 : pyInt (dictGetD kvs "release_year" (.int 0)) <;>
      simp [process_message, hd, pyFloat, h1, h2]
  · intro hv ok n ms db
    simp [runLoop, hdur hv]
  · intro h1 h2 h3
    refine ⟨{ title := dictGetD kvs "title" .null,
              artist := dictGetD kvs "artist" .null,
              genre := dictGetD kvs "genre" .null,
              duration_seconds := 0, release_year := 0, sentiment := 0 },
            ?_, rfl, rfl, rfl⟩
    simp [process_message, dictGetD, h1, h2, h3, pyInt, pyFloat]

/-- Witness for C10: a null duration drops the message and leaves the loop
state unchanged; the same message without the numeric keys is accepted with
defaulted numeric fields. -/
theorem null_numeric_field_drops_message_witness :
    process_message (.obj [("title", .str "Imagine"),
      ("duration_seconds", .null)]) = none ∧
    runLoop (fun _ => true) 0 [.obj [("title", .str "Imagine"),
      ("duration_seconds", .null)]] (init_db none) =
      runLoop (fun _ => true) 0 [] (init_db none) ∧
    ∃ p : PySong, process_message (.obj [("title", .str "Imagine")]) = some p ∧
      p.duration_seconds = 0 ∧ p.release_year = 0 ∧ p.sentiment = 0 :=
  ⟨(null_numeric_field_drops_message
      [("title", .str "Imagine"), ("duration_seconds", .null)]).1 rfl,
   (null_numeric_field_drops_message
      [("title", .str "Imagine"), ("duration_seconds", .null)]).2.2.2.1 rfl
      (fun _ => true) 0 [] (init_db none),
   (null_numeric_field_drops_message
      [("title", .str "Imagine")]).2.2.2.2 rfl rfl rfl⟩

/-- Claim C5: each grouped query of the aggregate stage returns one pair per
distinct group key occurring in the store, with the aggregate (count, or mean
sentiment) computed over exactly the store's records in that group, and the
pairs in strictly ascending key order; on a store holding records with years
1975, 1975, 1980 the year/count query returns [(1975, 2), (1980, 1)]. -/
theorem grouped_queries_correct :
    (∀ db : DBFile,
      List.Sorted (· < ·) ((releaseYearCounts db).map Prod.fst) ∧
      (∀ y : Int, y ∈ (releaseYearCounts db).map Prod.fst ↔
        y ∈ db.rows.map (fun r => r.2.release_year)) ∧
      (∀ p ∈ releaseYearCounts db,
        p.2 = (db.rows.filter (fun r => r.2.release_year = p.1)).length) ∧
      List.Sorted (· < ·) ((releaseYearAvgSentiment db).map Prod.fst) ∧
      (∀ y : Int, y ∈ (releaseYearAvgSentiment db).map Prod.fst ↔
        y ∈ db.rows.map (fun r => r.2.release_year)) ∧
      (∀ p ∈ releaseYearAvgSentiment db,
        p.2 = ((db.rows.filter (fun r => r.2.release_year = p.1)).map
            (fun r => r.2.sentiment)).sum /
          ((db.rows.filter (fun r => r.2.release_year = p.1)).length : ℚ)) ∧
      List.Sorted (· < ·) ((genreCounts db).map Prod.fst) ∧
      (∀ g : WithBot String, g ∈ (genreCounts db).map Prod.fst ↔
        g ∈ db.rows.map (fun r => genreKey r.2)) ∧
      (∀ p ∈ genreCounts db,
        p.2 = (db.rows.filter (fun r => genreKey r.2 = p.1)).length)) ∧
    releaseYearCounts exampleDb = [((1975 : Int), 2), (1980, 1)] := by
  constructor
  · intro db
    have k1 : (releaseYearCounts db).map Prod.fst =
        sortKeys (db.rows.map (fun r => r.2.release_year)) := map_fst_keyed _ _
    have k2 : (releaseYearAvgSentiment db).map Prod.fst =
        sortKeys (db.rows.map (fun r => r.2.release_year)) := map_fst_keyed _ _
    have k3 : (genreCounts db).map Prod.fst =
        sortKeys (db.rows.map (fun r => genreKey r.2)) := map_fst_keyed _ _
    refine ⟨?_, ?_, ?_, ?_, ?_, ?_, ?_, ?_, ?_⟩
    · rw [k1]; exact sortKeys_sorted_lt _
    · intro y; rw [k1, mem_sortKeys]
    · intro p hp
      obtain ⟨y, _, rfl⟩ := List.mem_map.mp hp
      rfl
    · rw [k2]; exact sortKeys_sorted_lt _
    · intro y; rw [k2, mem_sortKeys]
    · intro p hp
      obtain ⟨y, _, rfl⟩ := List.mem_map.mp hp
      rfl
    · rw [k3]; exact sortKeys_sorted_lt _
    · intro g; rw [k3, mem_sortKeys]
    · intro p hp
      obtain ⟨g, _, rfl⟩ := List.mem_map.mp hp
      rfl
  · decide

/-- Witness for C5 at the concrete three-record store. -/
theorem grouped_queries_correct_witness :
    ((1975 : Int), (2 : Nat)) ∈ releaseYearCounts exampleDb ∧
    (2 : Nat) =
      (exampleDb.rows.filter (fun r => r.2.release_year = (1975 : Int))).length ∧
    releaseYearCounts exampleDb = [((1975 : Int), 2), (1980, 1)] :=
  ⟨by decide,
   (grouped_queries_correct.1 exampleDb).2.2.1 ((1975 : Int), (2 : Nat))
     (by decide),
   grouped_queries_correct.2⟩

/-- Claim C8: starting from the freshly initialized store, a run in which
every insert succeeds appends exactly the validated records in arrival
order, assigning them the consecutive identifiers 1, 2, ... - unique and
strictly increasing - while a message whose validation fails contributes
nothing and consumes no identifier. -/
theorem identifiers_strictly_increasing (ok : Nat → Bool) (msgs : List JValue)
    (h : ∀ k, ok k = true) :
    runLoop ok 0 msgs (init_db none) = .ended
      { hasTable := true,
        rows := (List.range' 1 (accepted msgs).length).zip (accepted msgs),
        seq := (accepted msgs).length } ∧
    List.Sorted (· < ·)
      (((List.range' 1 (accepted msgs).length).zip (accepted msgs)).map
        Prod.fst) ∧
    ((List.range' 1 (accepted msgs).length).zip (accepted msgs)).map
      Prod.snd = accepted msgs ∧
    (∀ (pre post : List JValue) (bad : JValue), process_message bad = none →
      accepted (pre ++ bad :: post) = accepted (pre ++ post)) := by
  refine ⟨?_, ?_, ?_, ?_⟩
  · have hr := runLoop_all_ok ok h msgs 0 (init_db none)
    simpa [init_db, connectFile] using hr
  · rw [List.map_fst_zip _ _ (by rw [List.length_range'])]
    exact sorted_lt_range' 1 _
  · rw [List.map_snd_zip _ _ (by rw [List.length_range'])]
  · intro pre post bad hb
    simp [accepted, List.filterMap_append, List.filterMap_cons, hb]

/-- Witness for C8: two valid messages around a non-mapping payload get the
identifiers 1 and 2; the dropped payload consumes none. -/
theorem identifiers_strictly_increasing_witness :
    runLoop (fun _ => true) 0 [goodMsgA, badMsg, goodMsgB] (init_db none) =
      .ended { hasTable := true, rows := [(1, songA), (2, songB)], seq := 2 } :=
  (identifiers_strictly_increasing (fun _ => true) [goodMsgA, badMsg, goodMsgB]
    (fun _ => rfl)).1
